import Mathlib

/-
  Verification development for idokutela/HTTPStatusCodes.

  The repository (src/HTTPStatusCodes.ts) exports one integer constant per
  HTTP status code (`export const NAME = code`), a literal type of the same
  name per constant (`export type NAME = code`), five category union types
  (Informational, Success, Redirection, ClientError, ServerError) and the
  union HTTPStatus of all five.  Every definition below is transcribed from
  those declarations, in source order.  The lookup operations described in
  the specification (lookupByCode, lookupByName, listByCategory, allEntries)
  have no implementation in the repository; they are modelled from the
  specification's words and marked as such.
-/

namespace HTTPStatusCodes

/- One constant per `export const` declaration of src/HTTPStatusCodes.ts,
   in the source's declaration order. -/

def CONTINUE : Int := 100

def SWITCHING_PROTOCOLS : Int := 101

def PROCESSING : Int := 102

def EARLY_HINTS : Int := 103

def OK : Int := 200

def CREATED : Int := 201

def ACCEPTED : Int := 202

def NON_AUTHORITATIVE_INFORMATION : Int := 203

def NO_CONTENT : Int := 204

def RESET_CONTENT : Int := 205

def PARTIAL_CONTENT : Int := 206

def MULTI_STATUS : Int := 207

def ALREADY_REPORTED : Int := 208

def IM_USED : Int := 226

def MULTIPLE_CHOICES : Int := 300

def MOVED_PERMANENTLY : Int := 301

def FOUND : Int := 302

def SEE_OTHER : Int := 303

def NOT_MODIFIED : Int := 304

def USE_PROXY : Int := 305

def SWITCH_PROXY : Int := 306

def TEMPORARY_REDIRECT : Int := 307

def PERMANENT_REDIRECT : Int := 308

def BAD_REQUEST : Int := 400

def UNAUTHORISED : Int := 401

def PAYMENT_REQUIRED : Int := 402

def FORBIDDEN : Int := 403

def NOT_FOUND : Int := 404

def METHOD_NOT_ALLOWED : Int := 405

def NOT_ACCEPTABLE : Int := 406

def PROXY_AUTHENTICATION_REQUIRED : Int := 407

def REQUEST_TIMEOUT : Int := 408

def CONFLICT : Int := 409

def GONE : Int := 410

def LENGTH_REQUIRED : Int := 411

def PRECONDITION_FAILED : Int := 412

def PAYLOAD_TOO_LARGE : Int := 413

def URI_TOO_LONG : Int := 414

def UNSUPPORTED_MEDIA_TYPE : Int := 415

def RANGE_NOT_SATISFIABLE : Int := 416

def EXPECTATION_FAILED : Int := 417

def IM_A_TEAPOT : Int := 418

def MISDIRECTED_REQUEST : Int := 421

def UNPROCESSABLE_ENTRY : Int := 422

def LOCKED : Int := 423

def FAILED_DEPENDENCY : Int := 424

def TOO_EARLY : Int := 425

def UPGRADE_REQUIRED : Int := 426

def PRECONDITION_REQUIRED : Int := 428

def TOO_MANY_REQUESTS : Int := 429

def REQUEST_HEADER_FIELDS_TOO_LARGE : Int := 431

def UNAVAILABLE_FOR_LEGAL_REASONS : Int := 451

def INTERNAL_SERVER_ERROR : Int := 500

def NOT_IMPLEMENTED : Int := 501

def BAD_GATEWAY : Int := 502

def SERVICE_UNAVAILABLE : Int := 503

def GATEWAY_TIMEOUT : Int := 504

def HTTP_VERSION_NOT_SUPPORTED : Int := 505

def VARIANT_ALSO_NEGOTIATES : Int := 506

def INSUFFICIENT_STORAGE : Int := 507

def LOOP_DETECTED : Int := 508

def NOT_EXTENDED : Int := 510

def NETWORK_AUTHENTICATION_REQUIRED : Int := 511

/- The five category union types of the source, each transcribed as the
   list of its member constants, in the order the union lists them. -/

def Informational : List Int :=
  [CONTINUE, SWITCHING_PROTOCOLS, PROCESSING, EARLY_HINTS]

def Success : List Int :=
  [OK, CREATED, ACCEPTED, NON_AUTHORITATIVE_INFORMATION, NO_CONTENT,
   RESET_CONTENT, PARTIAL_CONTENT, MULTI_STATUS, ALREADY_REPORTED, IM_USED]

def Redirection : List Int :=
  [MULTIPLE_CHOICES, MOVED_PERMANENTLY, FOUND, SEE_OTHER, NOT_MODIFIED,
   USE_PROXY, SWITCH_PROXY, TEMPORARY_REDIRECT, PERMANENT_REDIRECT]

def ClientError : List Int :=
  [BAD_REQUEST, UNAUTHORISED, PAYMENT_REQUIRED, FORBIDDEN, NOT_FOUND,
   METHOD_NOT_ALLOWED, NOT_ACCEPTABLE, PROXY_AUTHENTICATION_REQUIRED,
   REQUEST_TIMEOUT, CONFLICT, GONE, LENGTH_REQUIRED, PRECONDITION_FAILED,
   PAYLOAD_TOO_LARGE, URI_TOO_LONG, UNSUPPORTED_MEDIA_TYPE,
   RANGE_NOT_SATISFIABLE, EXPECTATION_FAILED, IM_A_TEAPOT,
   MISDIRECTED_REQUEST, UNPROCESSABLE_ENTRY, LOCKED, FAILED_DEPENDENCY,
   TOO_EARLY, UPGRADE_REQUIRED, PRECONDITION_REQUIRED, TOO_MANY_REQUESTS,
   REQUEST_HEADER_FIELDS_TOO_LARGE, UNAVAILABLE_FOR_LEGAL_REASONS]

def ServerError : List Int :=
  [INTERNAL_SERVER_ERROR, NOT_IMPLEMENTED, BAD_GATEWAY, SERVICE_UNAVAILABLE,
   GATEWAY_TIMEOUT, HTTP_VERSION_NOT_SUPPORTED, VARIANT_ALSO_NEGOTIATES,
   INSUFFICIENT_STORAGE, LOOP_DETECTED, NOT_EXTENDED,
   NETWORK_AUTHENTICATION_REQUIRED]

/- `export type HTTPStatus = Informational | Success | Redirection
   | ClientError | ServerError`. -/
def HTTPStatus : List Int :=
  Informational ++ Success ++ Redirection ++ ClientError ++ ServerError

/-- The five class tags of the specification's data model, one per category
union type of the source. -/
inductive Category where
  | informational
  | success
  | redirection
  | clientError
  | serverError
deriving DecidableEq, Repr

/-- One row of the registry (spec §3): code, symbolic name, category.  The
source carries the description only as a documentation comment, not as data,
so no `description` field is embedded. -/
structure StatusEntry where
  code : Int
  name : String
  category : Category
deriving DecidableEq, Repr

/-- The registry: one entry per exported constant, in the source's
declaration order.  Each entry's code is the constant it names; its category
is the union type that lists the constant in the source. -/
def registry : List StatusEntry :=
  [⟨CONTINUE, "CONTINUE", .informational⟩,
   ⟨SWITCHING_PROTOCOLS, "SWITCHING_PROTOCOLS", .informational⟩,
   ⟨PROCESSING, "PROCESSING", .informational⟩,
   ⟨EARLY_HINTS, "EARLY_HINTS", .informational⟩,
   ⟨OK, "OK", .success⟩,
   ⟨CREATED, "CREATED", .success⟩,
   ⟨ACCEPTED, "ACCEPTED", .success⟩,
   ⟨NON_AUTHORITATIVE_INFORMATION, "NON_AUTHORITATIVE_INFORMATION", .success⟩,
   ⟨NO_CONTENT, "NO_CONTENT", .success⟩,
   ⟨RESET_CONTENT, "RESET_CONTENT", .success⟩,
   ⟨PARTIAL_CONTENT, "PARTIAL_CONTENT", .success⟩,
   ⟨MULTI_STATUS, "MULTI_STATUS", .success⟩,
   ⟨ALREADY_REPORTED, "ALREADY_REPORTED", .success⟩,
   ⟨IM_USED, "IM_USED", .success⟩,
   ⟨MULTIPLE_CHOICES, "MULTIPLE_CHOICES", .redirection⟩,
   ⟨MOVED_PERMANENTLY, "MOVED_PERMANENTLY", .redirection⟩,
   ⟨FOUND, "FOUND", .redirection⟩,
   ⟨SEE_OTHER, "SEE_OTHER", .redirection⟩,
   ⟨NOT_MODIFIED, "NOT_MODIFIED", .redirection⟩,
   ⟨USE_PROXY, "USE_PROXY", .redirection⟩,
   ⟨SWITCH_PROXY, "SWITCH_PROXY", .redirection⟩,
   ⟨TEMPORARY_REDIRECT, "TEMPORARY_REDIRECT", .redirection⟩,
   ⟨PERMANENT_REDIRECT, "PERMANENT_REDIRECT", .redirection⟩,
   ⟨BAD_REQUEST, "BAD_REQUEST", .clientError⟩,
   ⟨UNAUTHORISED, "UNAUTHORISED", .clientError⟩,
   ⟨PAYMENT_REQUIRED, "PAYMENT_REQUIRED", .clientError⟩,
   ⟨FORBIDDEN, "FORBIDDEN", .clientError⟩,
   ⟨NOT_FOUND, "NOT_FOUND", .clientError⟩,
   ⟨METHOD_NOT_ALLOWED, "METHOD_NOT_ALLOWED", .clientError⟩,
   ⟨NOT_ACCEPTABLE, "NOT_ACCEPTABLE", .clientError⟩,
   ⟨PROXY_AUTHENTICATION_REQUIRED, "PROXY_AUTHENTICATION_REQUIRED", .clientError⟩,
   ⟨REQUEST_TIMEOUT, "REQUEST_TIMEOUT", .clientError⟩,
   ⟨CONFLICT, "CONFLICT", .clientError⟩,
   ⟨GONE, "GONE", .clientError⟩,
   ⟨LENGTH_REQUIRED, "LENGTH_REQUIRED", .clientError⟩,
   ⟨PRECONDITION_FAILED, "PRECONDITION_FAILED", .clientError⟩,
   ⟨PAYLOAD_TOO_LARGE, "PAYLOAD_TOO_LARGE", .clientError⟩,
   ⟨URI_TOO_LONG, "URI_TOO_LONG", .clientError⟩,
   ⟨UNSUPPORTED_MEDIA_TYPE, "UNSUPPORTED_MEDIA_TYPE", .clientError⟩,
   ⟨RANGE_NOT_SATISFIABLE, "RANGE_NOT_SATISFIABLE", .clientError⟩,
   ⟨EXPECTATION_FAILED, "EXPECTATION_FAILED", .clientError⟩,
   ⟨IM_A_TEAPOT, "IM_A_TEAPOT", .clientError⟩,
   ⟨MISDIRECTED_REQUEST, "MISDIRECTED_REQUEST", .clientError⟩,
   ⟨UNPROCESSABLE_ENTRY, "UNPROCESSABLE_ENTRY", .clientError⟩,
   ⟨LOCKED, "LOCKED", .clientError⟩,
   ⟨FAILED_DEPENDENCY, "FAILED_DEPENDENCY", .clientError⟩,
   ⟨TOO_EARLY, "TOO_EARLY", .clientError⟩,
   ⟨UPGRADE_REQUIRED, "UPGRADE_REQUIRED", .clientError⟩,
   ⟨PRECONDITION_REQUIRED, "PRECONDITION_REQUIRED", .clientError⟩,
   ⟨TOO_MANY_REQUESTS, "TOO_MANY_REQUESTS", .clientError⟩,
   ⟨REQUEST_HEADER_FIELDS_TOO_LARGE, "REQUEST_HEADER_FIELDS_TOO_LARGE", .clientError⟩,
   ⟨UNAVAILABLE_FOR_LEGAL_REASONS, "UNAVAILABLE_FOR_LEGAL_REASONS", .clientError⟩,
   ⟨INTERNAL_SERVER_ERROR, "INTERNAL_SERVER_ERROR", .serverError⟩,
   ⟨NOT_IMPLEMENTED, "NOT_IMPLEMENTED", .serverError⟩,
   ⟨BAD_GATEWAY, "BAD_GATEWAY", .serverError⟩,
   ⟨SERVICE_UNAVAILABLE, "SERVICE_UNAVAILABLE", .serverError⟩,
   ⟨GATEWAY_TIMEOUT, "GATEWAY_TIMEOUT", .serverError⟩,
   ⟨HTTP_VERSION_NOT_SUPPORTED, "HTTP_VERSION_NOT_SUPPORTED", .serverError⟩,
   ⟨VARIANT_ALSO_NEGOTIATES, "VARIANT_ALSO_NEGOTIATES", .serverError⟩,
   ⟨INSUFFICIENT_STORAGE, "INSUFFICIENT_STORAGE", .serverError⟩,
   ⟨LOOP_DETECTED, "LOOP_DETECTED", .serverError⟩,
   ⟨NOT_EXTENDED, "NOT_EXTENDED", .serverError⟩,
   ⟨NETWORK_AUTHENTICATION_REQUIRED, "NETWORK_AUTHENTICATION_REQUIRED", .serverError⟩]

/-- The value-level name-to-code table: the exported constants, as
(name, value) pairs, derived from the registry whose codes are those
constants. -/
def valueTable : List (String × Int) :=
  registry.map (fun e => (e.name, e.code))

/-- The type-level name-to-code table: one pair per
`export type NAME = literal` declaration of the source, the literal
transcribed verbatim. -/
def typeTable : List (String × Int) :=
  [("CONTINUE", 100), ("SWITCHING_PROTOCOLS", 101), ("PROCESSING", 102),
   ("EARLY_HINTS", 103), ("OK", 200), ("CREATED", 201), ("ACCEPTED", 202),
   ("NON_AUTHORITATIVE_INFORMATION", 203), ("NO_CONTENT", 204),
   ("RESET_CONTENT", 205), ("PARTIAL_CONTENT", 206), ("MULTI_STATUS", 207),
   ("ALREADY_REPORTED", 208), ("IM_USED", 226), ("MULTIPLE_CHOICES", 300),
   ("MOVED_PERMANENTLY", 301), ("FOUND", 302), ("SEE_OTHER", 303),
   ("NOT_MODIFIED", 304), ("USE_PROXY", 305), ("SWITCH_PROXY", 306),
   ("TEMPORARY_REDIRECT", 307), ("PERMANENT_REDIRECT", 308),
   ("BAD_REQUEST", 400), ("UNAUTHORISED", 401), ("PAYMENT_REQUIRED", 402),
   ("FORBIDDEN", 403), ("NOT_FOUND", 404), ("METHOD_NOT_ALLOWED", 405),
   ("NOT_ACCEPTABLE", 406), ("PROXY_AUTHENTICATION_REQUIRED", 407),
   ("REQUEST_TIMEOUT", 408), ("CONFLICT", 409), ("GONE", 410),
   ("LENGTH_REQUIRED", 411), ("PRECONDITION_FAILED", 412),
   ("PAYLOAD_TOO_LARGE", 413), ("URI_TOO_LONG", 414),
   ("UNSUPPORTED_MEDIA_TYPE", 415), ("RANGE_NOT_SATISFIABLE", 416),
   ("EXPECTATION_FAILED", 417), ("IM_A_TEAPOT", 418),
   ("MISDIRECTED_REQUEST", 421), ("UNPROCESSABLE_ENTRY", 422),
   ("LOCKED", 423), ("FAILED_DEPENDENCY", 424), ("TOO_EARLY", 425),
   ("UPGRADE_REQUIRED", 426), ("PRECONDITION_REQUIRED", 428),
   ("TOO_MANY_REQUESTS", 429), ("REQUEST_HEADER_FIELDS_TOO_LARGE", 431),
   ("UNAVAILABLE_FOR_LEGAL_REASONS", 451), ("INTERNAL_SERVER_ERROR", 500),
   ("NOT_IMPLEMENTED", 501), ("BAD_GATEWAY", 502),
   ("SERVICE_UNAVAILABLE", 503), ("GATEWAY_TIMEOUT", 504),
   ("HTTP_VERSION_NOT_SUPPORTED", 505), ("VARIANT_ALSO_NEGOTIATES", 506),
   ("INSUFFICIENT_STORAGE", 507), ("LOOP_DETECTED", 508),
   ("NOT_EXTENDED", 510), ("NETWORK_AUTHENTICATION_REQUIRED", 511)]

/-- The canonical code table of spec §6, transcribed from the
specification's words (name → value, in the spec's order), for comparison
with the tables embedded from the source. -/
def specTable : List (String × Int) :=
  [("CONTINUE", 100), ("SWITCHING_PROTOCOLS", 101), ("PROCESSING", 102),
   ("EARLY_HINTS", 103), ("OK", 200), ("CREATED", 201), ("ACCEPTED", 202),
   ("NON_AUTHORITATIVE_INFORMATION", 203), ("NO_CONTENT", 204),
   ("RESET_CONTENT", 205), ("PARTIAL_CONTENT", 206), ("MULTI_STATUS", 207),
   ("ALREADY_REPORTED", 208), ("IM_USED", 226), ("MULTIPLE_CHOICES", 300),
   ("MOVED_PERMANENTLY", 301), ("FOUND", 302), ("SEE_OTHER", 303),
   ("NOT_MODIFIED", 304), ("USE_PROXY", 305), ("SWITCH_PROXY", 306),
   ("TEMPORARY_REDIRECT", 307), ("PERMANENT_REDIRECT", 308),
   ("BAD_REQUEST", 400), ("UNAUTHORISED", 401), ("PAYMENT_REQUIRED", 402),
   ("FORBIDDEN", 403), ("NOT_FOUND", 404), ("METHOD_NOT_ALLOWED", 405),
   ("NOT_ACCEPTABLE", 406), ("PROXY_AUTHENTICATION_REQUIRED", 407),
   ("REQUEST_TIMEOUT", 408), ("CONFLICT", 409), ("GONE", 410),
   ("LENGTH_REQUIRED", 411), ("PRECONDITION_FAILED", 412),
   ("PAYLOAD_TOO_LARGE", 413), ("URI_TOO_LONG", 414),
   ("UNSUPPORTED_MEDIA_TYPE", 415), ("RANGE_NOT_SATISFIABLE", 416),
   ("EXPECTATION_FAILED", 417), ("IM_A_TEAPOT", 418),
   ("MISDIRECTED_REQUEST", 421), ("UNPROCESSABLE_ENTRY", 422),
   ("LOCKED", 423), ("FAILED_DEPENDENCY", 424), ("TOO_EARLY", 425),
   ("UPGRADE_REQUIRED", 426), ("PRECONDITION_REQUIRED", 428),
   ("TOO_MANY_REQUESTS", 429), ("REQUEST_HEADER_FIELDS_TOO_LARGE", 431),
   ("UNAVAILABLE_FOR_LEGAL_REASONS", 451), ("INTERNAL_SERVER_ERROR", 500),
   ("NOT_IMPLEMENTED", 501), ("BAD_GATEWAY", 502),
   ("SERVICE_UNAVAILABLE", 503), ("GATEWAY_TIMEOUT", 504),
   ("HTTP_VERSION_NOT_SUPPORTED", 505), ("VARIANT_ALSO_NEGOTIATES", 506),
   ("INSUFFICIENT_STORAGE", 507), ("LOOP_DETECTED", 508),
   ("NOT_EXTENDED", 510), ("NETWORK_AUTHENTICATION_REQUIRED", 511)]

/-- Modelled from the spec: `category(code) = floor(code / 100)` mapped to
the class tag (1 → Informational, …, 5 → ServerError); codes outside
[100, 599] have no class. -/
def classOfCode (c : Int) : Option Category :=
  if 100 ≤ c ∧ c < 200 then some .informational
  else if 200 ≤ c ∧ c < 300 then some .success
  else if 300 ≤ c ∧ c < 400 then some .redirection
  else if 400 ≤ c ∧ c < 500 then some .clientError
  else if 500 ≤ c ∧ c < 600 then some .serverError
  else none

/-- The five category member lists of the source, paired with their class
tags, for membership counting. -/
def categoryLists : List (Category × List Int) :=
  [(.informational, Informational), (.success, Success),
   (.redirection, Redirection), (.clientError, ClientError),
   (.serverError, ServerError)]

/-- Modelled from the spec: `allEntries()` returns the full registry.  The
repository exports no functions, so the operation is modelled over the
registry transcribed above, in the source's declaration order. -/
def allEntries : List StatusEntry := registry

/-- Modelled from the spec: `lookupByCode(code)` returns the entry whose
code matches exactly; `none` models the NotFound condition. -/
def lookupByCode (c : Int) : Option StatusEntry :=
  allEntries.find? (fun e => e.code == c)

/-- Modelled from the spec: `lookupByName(name)` matches the symbolic name
exactly and case-sensitively; `none` models the NotFound condition. -/
def lookupByName (n : String) : Option StatusEntry :=
  allEntries.find? (fun e => e.name == n)

/-- Modelled from the spec: `listByCategory(category)` returns all entries
of the category, in registry order. -/
def listByCategory (cat : Category) : List StatusEntry :=
  allEntries.filter (fun e => e.category == cat)

/-- Modelled from the spec: a lookup by code as an explicit state-passing
operation, returning the result together with the registry it leaves
behind (the spec says all operations are pure reads that never mutate the
table). -/
def lookupByCodeOp (s : List StatusEntry) (c : Int) :
    Option StatusEntry × List StatusEntry :=
  (s.find? (fun e => e.code == c), s)

/-- Modelled from the spec: a lookup by name as an explicit state-passing
operation over the registry. -/
def lookupByNameOp (s : List StatusEntry) (n : String) :
    List StatusEntry × Option StatusEntry × List StatusEntry :=
  (s, s.find? (fun e => e.name == n), s)

/-- Modelled from the spec: listing a category as an explicit state-passing
operation over the registry. -/
def listByCategoryOp (s : List StatusEntry) (cat : Category) :
    List StatusEntry × List StatusEntry :=
  (s.filter (fun e => e.category == cat), s)

/-- Modelled from the spec: `allEntries()` as an explicit state-passing
operation over the registry. -/
def allEntriesOp (s : List StatusEntry) :
    List StatusEntry × List StatusEntry :=
  (s, s)

/- ------------------------------------------------------------------ -/
/- Theorems, one per claim.                                            -/
/- ------------------------------------------------------------------ -/

/-- Claim C1: the library exposes exactly one named integer constant per
status code of the canonical table of spec §6, each bound to the stated
value, and no status constant outside that table: the (name, value) table
formed by the exported constants equals the spec's canonical table. -/
theorem value_table_matches_spec_table : valueTable = specTable := by
  decide

/-- Claim C2: every registry entry's category is the class tag determined
by the hundreds digit of its code, and every code belongs to exactly one of
the five category union types. -/
theorem category_matches_hundreds_digit :
    (registry.all fun e => decide (classOfCode e.code = some e.category)) = true ∧
    (registry.all fun e =>
      decide ((categoryLists.filter (fun p => p.2.contains e.code)).length = 1)) = true := by
  constructor
  · decide
  · decide

/-- Claim C3: over the whole registry, no two entries share a code and no
two entries share a symbolic name. -/
theorem registry_codes_and_names_unique :
    (registry.map (fun e => e.code)).Nodup ∧
    (registry.map (fun e => e.name)).Nodup := by
  constructor
  · decide
  · decide

/-- Claim C4 counterexample: `allEntries()` does not have length 62; the
registry (and the spec's own §6 table) has 63 entries, so the claimed count
is false. -/
theorem allEntries_length_not_62 : ¬ allEntries.length = 62 := by
  decide

/-- Claim C4 (amended): `allEntries()` returns the full registry with
length 63, sorted strictly ascending by code, with no duplicate entries. -/
theorem allEntries_complete_sorted_nodup :
    allEntries.length = 63 ∧
    List.Pairwise (fun a b => a.code < b.code) allEntries ∧
    allEntries.Nodup := by
  refine ⟨by decide, by decide, by decide⟩

/-- Claim C5: `listByCategory(ClientError)` is sorted strictly ascending by
code, starts at code 400, ends at code 451, and every element's code lies
in [400, 499]. -/
theorem listByCategory_clientError_correct :
    List.Pairwise (fun a b => a.code < b.code) (listByCategory .clientError) ∧
    ((listByCategory .clientError).head?.map (fun e => e.code)) = some 400 ∧
    ((listByCategory .clientError).getLast?.map (fun e => e.code)) = some 451 ∧
    ((listByCategory .clientError).all
      (fun e => decide (400 ≤ e.code ∧ e.code ≤ 499))) = true := by
  refine ⟨by decide, by decide, by decide, by decide⟩

/-- Claim C6: `lookupByCode(404)` returns the entry named NOT_FOUND, and
`lookupByName("NOT_FOUND")` returns the entry with code 404. -/
theorem lookup_404_is_not_found :
    (lookupByCode 404).map (fun e => e.name) = some ("NOT_FOUND") ∧
    (lookupByName ("NOT_FOUND")).map (fun e => e.code) = some 404 := by
  constructor
  · decide
  · decide

/-- Claim C7: `lookupByCode` fails (returns none, the NotFound condition)
exactly on the integers that are not registered codes, and `lookupByName`
fails exactly on the strings that are not registered names under exact
case-sensitive match; in particular both fail on 999 and on
the string NOT_A_STATUS. -/
theorem lookup_fails_iff_unregistered :
    (∀ c : Int, lookupByCode c = none ↔ c ∉ registry.map (fun e => e.code)) ∧
    (∀ n : String, lookupByName n = none ↔ n ∉ registry.map (fun e => e.name)) ∧
    lookupByCode 999 = none ∧
    lookupByName ("NOT_A_STATUS") = none := by
  refine ⟨fun c => ?_, fun n => ?_, by decide, by decide⟩
  · rw [lookupByCode, allEntries, List.find?_eq_none]
    simp [List.mem_map]
  · rw [lookupByName, allEntries, List.find?_eq_none]
    simp [List.mem_map]

/-- Claim C8: every lookup operation is a pure, side-effect-free read: in
the state-passing model each operation leaves the registry unchanged, and a
second call on the registry left by the first returns the same result. -/
theorem lookups_pure_and_idempotent :
    (∀ c : Int, (lookupByCodeOp registry c).2 = registry ∧
      (lookupByCodeOp ((lookupByCodeOp registry c).2) c).1 =
        (lookupByCodeOp registry c).1) ∧
    (∀ n : String, (lookupByNameOp registry n).2.2 = registry ∧
      (lookupByNameOp ((lookupByNameOp registry n).2.2) n).2.1 =
        (lookupByNameOp registry n).2.1) ∧
    (∀ cat : Category, (listByCategoryOp registry cat).2 = registry ∧
      (listByCategoryOp ((listByCategoryOp registry cat).2) cat).1 =
        (listByCategoryOp registry cat).1) ∧
    ((allEntriesOp registry).2 = registry ∧
      (allEntriesOp ((allEntriesOp registry).2)).1 = (allEntriesOp registry).1) :=
  ⟨fun _ => ⟨rfl, rfl⟩, fun _ => ⟨rfl, rfl⟩, fun _ => ⟨rfl, rfl⟩, rfl, rfl⟩

/-- Claim C9: for every exported constant there is an exported literal type
of the same name whose sole inhabitant is the constant's value: the
type-level name-to-code table equals the value-level one. -/
theorem type_table_matches_value_table : typeTable = valueTable := by
  decide

/-- Claim C10: membership in HTTPStatus and in each category is exactly the
enumerated codes, not the full hundreds range: 419, 420, 427, 430 and 509
are members of no category and not of HTTPStatus. -/
theorem unassigned_codes_not_members :
    (([419, 420, 427, 430, 509] : List Int).all
      (fun c => !(HTTPStatus.contains c) &&
        (categoryLists.all (fun p => !(p.2.contains c))))) = true := by
  decide

end HTTPStatusCodes

